import Mathlib

/-
Verification development for the multi-database PostgreSQL connection
registry in server.py.

The registry state (connection pools, default-database pointer, loaded
configuration) and its operations are embedded as pure Lean functions.
Python dicts are embedded as insertion-ordered association lists with
unique keys; a live asyncpg pool handle is embedded as an opaque Nat
token; the asyncpg driver and the config-file writer are external
effects, so each operation that calls them takes their outcome as an
explicit argument (a connection attempt yields a handle or an error, a
save either succeeds or raises).  String predicates taken from Python
(strip, upper, isalnum, truthiness) are embedded at their ASCII
fragment, which covers every identifier and statement considered here.
-/

set_option autoImplicit false

namespace PgMcp

/-- Whitespace characters removed by Python str.strip with no argument
(ASCII fragment: space, tab, newline, carriage return, vertical tab,
form feed). -/
def pyWs (c : Char) : Bool :=
  c == ' ' || c == '\t' || c == '\n' || c == '\r' || c == '\x0b' || c == '\x0c'

/-- Drop leading whitespace, as Python str.lstrip. -/
def pyLStrip (l : List Char) : List Char :=
  l.dropWhile pyWs

/-- Drop trailing whitespace, as Python str.rstrip. -/
def pyRStrip (l : List Char) : List Char :=
  (l.reverse.dropWhile pyWs).reverse

/-- Drop whitespace at both ends, as Python str.strip in
query.strip(). -/
def pyStrip (l : List Char) : List Char :=
  pyRStrip (pyLStrip l)

/-- Boolean prefix test: begins p l is true when the pattern p is an
initial segment of l. -/
def begins : List Char → List Char → Bool
  | [], _ => true
  | _ :: _, [] => false
  | p :: ps, c :: cs => p == c && begins ps cs

/-- The literal character set [A-Za-z0-9] named by the spec text:
ASCII letters and digits.  This is the claim's character set, not a
model of the per-character test behind Python isalnum. -/
def asciiAlnumChar (c : Char) : Bool :=
  c.isAlpha || c.isDigit

/-- Python str.isalnum: true when the string is nonempty and every
character is alphanumeric.  The per-character classification is
Unicode-aware host data — it accepts letters such as é beyond ASCII —
so the embedding takes it as an explicit oracle alnum, like the driver
and save outcomes, and the theorems constrain it only by documented
facts (the empty string is never alphanumeric; é is). -/
def pyIsAlnum (alnum : Char → Bool) (l : List Char) : Bool :=
  !l.isEmpty && l.all alnum

/-- Python truthiness of an optional string: None and the empty string
are falsy, every other string is truthy. -/
def pyTruthyStr : Option String → Bool
  | none => false
  | some s => !(s == "")

/-- Association-list lookup, embedding Python dict indexing and
dict.get: the value stored at the first matching key. -/
def dictGet {α : Type} : List (String × α) → String → Option α
  | [], _ => none
  | p :: rest, k => if p.1 == k then some p.2 else dictGet rest k

/-- Key-membership test, embedding the Python expression k in d for a
dict d. -/
def hasKey {α : Type} (l : List (String × α)) (k : String) : Bool :=
  l.any (fun p => p.1 == k)

/-- Association-list store, embedding Python dict assignment d[k] = v:
replace the value in place when the key is present, append otherwise. -/
def dictSet {α : Type} (l : List (String × α)) (k : String) (v : α) : List (String × α) :=
  if hasKey l k then l.map (fun p => if p.1 == k then (k, v) else p)
  else l ++ [(k, v)]

/-- Association-list deletion, embedding Python del d[k]. -/
def dictDel {α : Type} (l : List (String × α)) (k : String) : List (String × α) :=
  l.filter (fun p => !(p.1 == k))

/-- The list of keys of a dict in insertion order, embedding
list(d.keys()). -/
def keys {α : Type} (l : List (String × α)) : List String :=
  l.map Prod.fst

/-- Optional project metadata stored under the project key of a
database entry: name, description and tags, each as written by
add_database. -/
structure ProjectInfo where
  name : Option String
  description : Option String
  tags : List String
  deriving Repr, DecidableEq

/-- One entry of config["databases"]: connection parameters plus
optional project metadata. -/
structure DbConfig where
  host : String
  port : Int
  database : String
  user : String
  password : String
  project : Option ProjectInfo := none
  deriving Repr, DecidableEq

/-- The DatabaseContext state: pools is the dict from database id to
live pool handle, default_database the current default pointer,
databases the config["databases"] dict and config_default the
config["default_database"] entry. -/
structure DatabaseContext where
  pools : List (String × Nat)
  default_database : Option String
  databases : List (String × DbConfig)
  config_default : Option String
  deriving Repr, DecidableEq

/-- Default-database resolution performed at the end of
DatabaseContext.connect: start from the configured default; when it is
truthy and has no live pool, fall back to the first live id when some
pool is live, and otherwise leave it unchanged. -/
def connectResolveDefault (pools : List (String × Nat)) (cfgd : Option String) : Option String :=
  match cfgd with
  | none => none
  | some d =>
    if !(d == "") && !(hasKey pools d) then
      match pools with
      | [] => some d
      | (k, _) :: _ => some k
    else some d

/-- DatabaseContext.connect, given the loaded configuration (the
databases dict and the configured default) and a driver oracle mapping
each spec to some handle on a successful pool creation and to none on a
raised connection error: every failed id is excluded from the live set
and the default is then resolved by connectResolveDefault. -/
def connect (dbs : List (String × DbConfig)) (cfgd : Option String)
    (driver : String → DbConfig → Option Nat) : DatabaseContext :=
  let pools := dbs.filterMap (fun p => (driver p.1 p.2).map (fun h => (p.1, h)))
  { pools := pools
    default_database := connectResolveDefault pools cfgd
    databases := dbs
    config_default := cfgd }

/-- DatabaseContext.get_pool: a missing argument resolves to the
default database; the resolved id is then looked up in the pools dict,
with none both when no default exists and when the id has no live
pool. -/
def get_pool (st : DatabaseContext) (database_id : Option String) : Option Nat :=
  match database_id with
  | some i => dictGet st.pools i
  | none =>
    match st.default_database with
    | some d => dictGet st.pools d
    | none => none

/-- DatabaseContext.get_available_databases: the live ids in dict
order. -/
def get_available_databases (st : DatabaseContext) : List String :=
  keys st.pools

/-- The id validity test of add_database:
database_id.replace("_", "").replace("-", "").isalnum(), with the
host's per-character classification passed as the oracle alnum. -/
def validId (alnum : Char → Bool) (s : String) : Bool :=
  pyIsAlnum alnum (s.toList.filter (fun c => !(c == '_' || c == '-')))

/-- Tag parsing of add_database:
project_tags.split(",") if project_tags else []. -/
def splitTags : Option String → List String
  | none => []
  | some t => if t == "" then [] else t.splitOn ","

/-- The project entry written by add_database: a populated dict when
project_name is truthy, None otherwise. -/
def mkProject (project_name project_description project_tags : Option String) :
    Option ProjectInfo :=
  if pyTruthyStr project_name then
    some { name := project_name
           description := project_description
           tags := splitTags project_tags }
  else none

/-- Outcome of one asyncpg.create_pool call: a fresh handle, or the
message of the raised exception. -/
inductive ConnectOutcome where
  | ok (handle : Nat)
  | fail (msg : String)
  deriving Repr, DecidableEq

/-- The result dict returned by add_database, one constructor per
return site. -/
inductive AddResult where
  | duplicate (error : String)
  | invalidId (error : String)
  | added (message : String) (database_id : String) (is_default : Bool)
  | failed (error : String)
  deriving Repr, DecidableEq

/-- The duplicate-id error text of add_database. -/
def dupMsg : String := "Database already exists"

/-- The invalid-id error text of add_database. -/
def invalidIdMsg : String :=
  "Database ID must contain only alphanumeric characters, underscores, and hyphens"

/-- add_database: reject a duplicate id (present in the pools dict)
first, then an invalid id (the host's isalnum classification is the
oracle alnum), then attempt the connection; on success insert the
pool, write the config entry (with project metadata only when
project_name is truthy), update the default when requested or when
none exists, and save the config — a raised save error is caught and
reported after the in-memory mutation already took effect. -/
def add_database (alnum : Char → Bool) (st : DatabaseContext) (database_id : String)
    (host : String) (port : Int)
    (database user password : String) (set_as_default : Bool)
    (project_name project_description project_tags : Option String)
    (conn : ConnectOutcome) (saveOk : Bool) : AddResult × DatabaseContext :=
  if hasKey st.pools database_id then
    (AddResult.duplicate dupMsg, st)
  else if !(validId alnum database_id) then
    (AddResult.invalidId invalidIdMsg, st)
  else
    match conn with
    | ConnectOutcome.fail msg => (AddResult.failed msg, st)
    | ConnectOutcome.ok handle =>
      let newCfg : DbConfig :=
        { host := host, port := port, database := database, user := user
          password := password
          project := mkProject project_name project_description project_tags }
      let pools1 := st.pools ++ [(database_id, handle)]
      let dbs1 := dictSet st.databases database_id newCfg
      let isDef := set_as_default || st.default_database == none
      let def1 := if isDef then some database_id else st.default_database
      let cfgd1 := if isDef then some database_id else st.config_default
      let st1 : DatabaseContext :=
        { pools := pools1, default_database := def1
          databases := dbs1, config_default := cfgd1 }
      if saveOk then
        (AddResult.added "added successfully" database_id (def1 == some database_id), st1)
      else
        (AddResult.failed "save failed", st1)

/-- The result dict returned by remove_database, one constructor per
return site. -/
inductive RemoveResult where
  | notFound (error : String)
  | lastProtected (error : String)
  | removed (message : String) (new_default : Option String)
  | failed (error : String)
  deriving Repr, DecidableEq

/-- The not-found error text of remove_database. -/
def notFoundMsg : String := "Database not found"

/-- The last-connection error text of remove_database. -/
def lastProtectedMsg : String := "Cannot remove the last database connection"

/-- remove_database: reject an id absent from the pools dict, then
protect the last live connection, then close the pool (closeOk false
embeds a raised close error), delete the pool and config entries,
reassign the default to the first remaining live id when the removed id
was the default, and save (saveOk false embeds a raised save error,
caught after the mutation took effect). -/
def remove_database (st : DatabaseContext) (database_id : String)
    (closeOk saveOk : Bool) : RemoveResult × DatabaseContext :=
  if !(hasKey st.pools database_id) then
    (RemoveResult.notFound notFoundMsg, st)
  else if st.pools.length == 1 then
    (RemoveResult.lastProtected lastProtectedMsg, st)
  else if !closeOk then
    (RemoveResult.failed "close failed", st)
  else
    let pools1 := dictDel st.pools database_id
    let dbs1 :=
      if hasKey st.databases database_id then dictDel st.databases database_id
      else st.databases
    let defPair :=
      if st.default_database == some database_id then
        match pools1 with
        | (k, _) :: _ => (some k, some k)
        | [] => ((none : Option String), (none : Option String))
      else (st.default_database, st.config_default)
    let st1 : DatabaseContext :=
      { pools := pools1, default_database := defPair.1
        databases := dbs1, config_default := defPair.2 }
    if saveOk then (RemoveResult.removed "removed successfully" defPair.1, st1)
    else (RemoveResult.failed "save failed", st1)

/-- The per-spec match test of find_databases_by_project: with project
metadata present, match on a truthy equal project name, or a truthy tag
contained in the tag list, or on both filters falsy; without project
metadata, match exactly when both filters are falsy. -/
def specMatches (project_name project_tag : Option String) (cfg : DbConfig) : Bool :=
  match cfg.project with
  | some info =>
    (pyTruthyStr project_name && info.name == project_name) ||
    (pyTruthyStr project_tag &&
      (match project_tag with
       | some t => info.tags.contains t
       | none => false)) ||
    (!(pyTruthyStr project_name) && !(pyTruthyStr project_tag))
  | none => !(pyTruthyStr project_name) && !(pyTruthyStr project_tag)

/-- find_databases_by_project, projected to the matching ids: iterate
the live ids in dict order, keep those that have a config entry and
whose entry passes specMatches (the source appends one info record per
kept id; ids are the dict keys, so membership of a spec in the result
is membership of its id here). -/
def find_databases_by_project (st : DatabaseContext)
    (project_name project_tag : Option String) : List String :=
  (get_available_databases st).filter (fun db_id =>
    match dictGet st.databases db_id with
    | some cfg => specMatches project_name project_tag cfg
    | none => false)

/-- A fetched row, embedded directly as its ordered field-to-value
record (the source turns each asyncpg Record into dict(row); the keyed
record is the abstraction both share). -/
abbrev Row := List (String × String)

/-- The result dict returned by execute_query, one constructor per
return site: the no-pool error record, the read-statement success
record, the write/DDL success record, and the caught-exception failure
record. -/
inductive QueryResult where
  | noPool (requested : Option String) (available : List String)
  | readOk (results : List Row) (row_count : Nat) (query : String) (database_id : Option String)
  | writeOk (message : String) (query : String) (database_id : Option String)
  | failed (error : String) (query : String) (database_id : Option String)
  deriving Repr, DecidableEq

/-- The success field of a result dict: absent on the no-pool record,
True on both success records, False on the failure record. -/
def successFlag : QueryResult → Option Bool
  | QueryResult.noPool _ _ => none
  | QueryResult.readOk _ _ _ _ => some true
  | QueryResult.writeOk _ _ _ => some true
  | QueryResult.failed _ _ _ => some false

/-- The read/write classifier of execute_query:
query.strip().upper().startswith(("SELECT", "WITH")). -/
def isReadQuery (q : String) : Bool :=
  let u := (pyStrip q.toList).map Char.toUpper
  begins ("SELECT".toList) u || begins ("WITH".toList) u

/-- The database_id reported in every result dict of execute_query:
database_id or db_context.default_database, with Python truthiness on
the argument. -/
def resolvedLabel (st : DatabaseContext) (database_id : Option String) : Option String :=
  if pyTruthyStr database_id then database_id else st.default_database

/-- execute_query, with the driver's behaviour passed in: fetchR is the
outcome of conn.fetch(query) and execR the outcome of
conn.execute(query), an Except.error embedding a raised exception
(while acquiring, executing or fetching).  Resolve the pool, return the
no-pool error record when resolution fails, classify the statement,
run the matching driver call, and catch any raised error into the
failure record. -/
def execute_query (st : DatabaseContext) (query : String) (database_id : Option String)
    (fetchR : Except String (List Row)) (execR : Except String String) : QueryResult :=
  match get_pool st database_id with
  | none => QueryResult.noPool database_id (get_available_databases st)
  | some _ =>
    if isReadQuery query then
      match fetchR with
      | Except.ok rows =>
        let results := rows
        QueryResult.readOk results results.length query (resolvedLabel st database_id)
      | Except.error e => QueryResult.failed e query (resolvedLabel st database_id)
    else
      match execR with
      | Except.ok msg => QueryResult.writeOk msg query (resolvedLabel st database_id)
      | Except.error e => QueryResult.failed e query (resolvedLabel st database_id)

/-- Spec-side classifier written from the specification words for
C5: trim leading whitespace, case-fold (ASCII), test for a SELECT or
WITH prefix.  To be compared with isReadQuery, which follows the
source and trims both ends. -/
def specIsRead (q : String) : Bool :=
  let u := (pyLStrip q.toList).map Char.toUpper
  begins ("SELECT".toList) u || begins ("WITH".toList) u

/-- Spec-side predicate written from the claim words for C2: the id
contains a character outside the literal set [A-Za-z0-9_-]. -/
def specHasBadChar (s : String) : Bool :=
  s.toList.any (fun c => !(asciiAlnumChar c || c == '_' || c == '-'))

/-- Spec-side predicate for the amended C2, relative to the host's
isalnum classification alnum: the id contains a character that is
neither alphanumeric under alnum nor an underscore or hyphen, or
removing every underscore and hyphen leaves nothing. -/
def specInvalidAmended (alnum : Char → Bool) (s : String) : Bool :=
  s.toList.any (fun c => !(alnum c || c == '_' || c == '-')) ||
  (s.toList.filter (fun c => !(c == '_' || c == '-'))).isEmpty

/-- Spec-side match criteria written from the claim words for C7: both
filters empty, or a given project name equal to the spec's project
name, or a given tag present in the spec's tag set, combined by OR.
To be compared with specMatches, which follows the source. -/
def claimCriteria (project_name project_tag : Option String) (cfg : DbConfig) : Bool :=
  (!(pyTruthyStr project_name) && !(pyTruthyStr project_tag)) ||
  (pyTruthyStr project_name && cfg.project.elim false (fun i => i.name == project_name)) ||
  (pyTruthyStr project_tag &&
    cfg.project.elim false (fun i => project_tag.elim false (fun t => i.tags.contains t)))

/-- A connection spec used in the concrete registry states below. -/
def cfgX : DbConfig :=
  { host := "h", port := 5432, database := "d", user := "u", password := "p" }

/-- A context with no pools, no default and no config entries. -/
def st0 : DatabaseContext :=
  { pools := [], default_database := none, databases := [], config_default := none }

/-- A context with the single live database main, which is the
default. -/
def stMain : DatabaseContext :=
  { pools := [("main", 7)], default_database := some "main"
    databases := [("main", cfgX)], config_default := some "main" }

/-- Project metadata of example spec A: project X, tag prod. -/
def infoProd : ProjectInfo := { name := some "X", description := none, tags := ["prod"] }

/-- Project metadata of example spec B: project X, tag dev. -/
def infoDev : ProjectInfo := { name := some "X", description := none, tags := ["dev"] }

/-- Example spec A of the project-index scenario. -/
def cfgA : DbConfig :=
  { host := "h", port := 1, database := "d", user := "u", password := "p"
    project := some infoProd }

/-- Example spec B of the project-index scenario. -/
def cfgB : DbConfig :=
  { host := "h", port := 1, database := "d", user := "u", password := "p"
    project := some infoDev }

/-- Example spec C of the project-index scenario: no project info. -/
def cfgC : DbConfig :=
  { host := "h", port := 1, database := "d", user := "u", password := "p" }

/-- The project-index scenario state: specs A, B, C, all live. -/
def stABC : DatabaseContext :=
  { pools := [("A", 1), ("B", 2), ("C", 3)], default_database := some "A"
    databases := [("A", cfgA), ("B", cfgB), ("C", cfgC)], config_default := some "A" }

/-- A context where the config holds a spec for ghost whose startup
connect failed, so ghost has no live pool. -/
def stOrphan : DatabaseContext :=
  { pools := [("a", 1)], default_database := some "a"
    databases := [("a", cfgX), ("ghost", cfgA)], config_default := some "a" }

/-- A concrete host classification used by witnesses: the ASCII
alphanumerics together with the letter é, which Python documents as
alphanumeric. -/
def alnumWithE (c : Char) : Bool :=
  asciiAlnumChar c || c == 'é'

theorem dictGet_of_not_hasKey {α : Type} (l : List (String × α)) (k : String)
    (h : hasKey l k = false) : dictGet l k = none := by
  induction l with
  | nil => rfl
  | cons p rest ih =>
    simp only [hasKey, List.any_cons, Bool.or_eq_false_iff] at h
    simp only [dictGet, h.1, if_false]
    exact ih (by simp [hasKey, h.2])

theorem dictGet_append_right {α : Type} (l : List (String × α)) (k : String) (v : α)
    (h : hasKey l k = false) : dictGet (l ++ [(k, v)]) k = some v := by
  induction l with
  | nil => simp [dictGet]
  | cons p rest ih =>
    simp only [hasKey, List.any_cons, Bool.or_eq_false_iff] at h
    simp only [List.cons_append, dictGet, h.1, if_false]
    exact ih (by simp [hasKey, h.2])

theorem dictGet_map_replace {α : Type} (l : List (String × α)) (k : String) (v : α)
    (h : hasKey l k = true) :
    dictGet (l.map (fun p => if p.1 == k then (k, v) else p)) k = some v := by
  induction l with
  | nil => simp [hasKey] at h
  | cons p rest ih =>
    cases hpk : (p.1 == k) with
    | true => simp [dictGet, hpk]
    | false =>
      simp only [hasKey, List.any_cons, hpk, Bool.false_or] at h
      have hmap : List.map (fun q => if q.1 == k then (k, v) else q) (p :: rest)
          = p :: List.map (fun q => if q.1 == k then (k, v) else q) rest := by
        simp only [List.map_cons, hpk, Bool.false_eq_true, if_false]
      rw [hmap, dictGet, if_neg (by simp [hpk])]
      exact ih h

theorem dictGet_dictSet_self {α : Type} (l : List (String × α)) (k : String) (v : α) :
    dictGet (dictSet l k v) k = some v := by
  unfold dictSet
  cases h : hasKey l k with
  | true => simpa using dictGet_map_replace l k v h
  | false => simpa using dictGet_append_right l k v h

/-- Claim C3, corrected: the two get_pool behaviours the claim asserts
for an omitted id do not extend to an empty id.  With a live pool
registered under main and main as default, get_pool of the empty string
is none, while get_pool of an omitted id is the default's pool. -/
theorem c3_counterexample :
    get_pool stMain (some "") = none ∧
    stMain.default_database = some "main" ∧
    get_pool stMain none = some 7 := ⟨rfl, rfl, rfl⟩

/-- Claim C3, amended: get_pool returns the live pool mapped to the
given id when one exists; an omitted id resolves to the current
default (none when no default is set); an unknown given id returns
none; and an empty id is looked up like any other id rather than
resolving to the default.  The function is total, so no lookup ever
raises. -/
theorem c3_get_pool_resolution :
    (∀ st i p, dictGet st.pools i = some p → get_pool st (some i) = some p) ∧
    (∀ st d, st.default_database = some d → get_pool st none = dictGet st.pools d) ∧
    (∀ st, st.default_database = none → get_pool st none = none) ∧
    (∀ st i, hasKey st.pools i = false → get_pool st (some i) = none) := by
  refine ⟨?_, ?_, ?_, ?_⟩
  · intro st i p h; simpa [get_pool] using h
  · intro st d h; simp [get_pool, h]
  · intro st h; simp [get_pool, h]
  · intro st i h; simpa [get_pool] using dictGet_of_not_hasKey st.pools i h

/-- Witness for C3 at the concrete single-database state. -/
theorem c3_get_pool_resolution_witness : get_pool stMain (some "main") = some 7 :=
  c3_get_pool_resolution.1 stMain "main" 7 rfl

/-- Claim C4, confirmed: in a state whose live-pool dict holds exactly
one entry, removing that entry's id fails with the
last-connection-protected error and returns the state unchanged (pools,
config and default all intact). -/
theorem c4_last_connection_protected (st : DatabaseContext) (id : String) (h : Nat)
    (closeOk saveOk : Bool) (hone : st.pools = [(id, h)]) :
    remove_database st id closeOk saveOk
      = (RemoveResult.lastProtected lastProtectedMsg, st) := by
  simp [remove_database, hone, hasKey]

/-- Witness for C4 at the concrete single-database state. -/
theorem c4_last_connection_protected_witness :
    remove_database stMain "main" true true
      = (RemoveResult.lastProtected lastProtectedMsg, stMain) :=
  c4_last_connection_protected stMain "main" 7 true true rfl

/-- Claim C8, confirmed: when the id is already present in the
live-pool dict, add_database fails with the duplicate error for every
connection outcome and save outcome, and the state — pools, config and
default — is returned unchanged (the duplicate test precedes every
mutation and the connection attempt). -/
theorem c8_duplicate_id (alnum : Char → Bool) (st : DatabaseContext) (id host : String)
    (port : Int)
    (database user password : String) (sd : Bool) (pn pd pt : Option String)
    (conn : ConnectOutcome) (saveOk : Bool) (hdup : hasKey st.pools id = true) :
    add_database alnum st id host port database user password sd pn pd pt conn saveOk
      = (AddResult.duplicate dupMsg, st) := by
  simp [add_database, hdup]

/-- Witness for C8 at the concrete single-database state. -/
theorem c8_duplicate_id_witness :
    add_database asciiAlnumChar stMain "main" "h" 1 "d" "u" "p" false none none none
      (ConnectOutcome.ok 1) true = (AddResult.duplicate dupMsg, stMain) :=
  c8_duplicate_id asciiAlnumChar stMain "main" "h" 1 "d" "u" "p" false none none none
    (ConnectOutcome.ok 1) true (by decide)

/-- Claim C9, confirmed: the not-found test of remove_database is
membership in the live-pool dict, so an id whose spec survives in the
config without a live pool is rejected as not found for every close
and save outcome, the state is unchanged, and the orphan spec is still
present in the config afterwards. -/
theorem c9_orphan_spec_not_removable (st : DatabaseContext) (id : String) (cfg : DbConfig)
    (closeOk saveOk : Bool) (hdead : hasKey st.pools id = false)
    (hcfg : dictGet st.databases id = some cfg) :
    remove_database st id closeOk saveOk = (RemoveResult.notFound notFoundMsg, st) ∧
    dictGet (remove_database st id closeOk saveOk).2.databases id = some cfg := by
  have h1 : remove_database st id closeOk saveOk
      = (RemoveResult.notFound notFoundMsg, st) := by
    simp [remove_database, hdead]
  exact ⟨h1, by rw [h1]; exact hcfg⟩

/-- Witness for C9 at the concrete state with the dead ghost spec. -/
theorem c9_orphan_spec_not_removable_witness :
    remove_database stOrphan "ghost" true true
      = (RemoveResult.notFound notFoundMsg, stOrphan) ∧
    dictGet (remove_database stOrphan "ghost" true true).2.databases "ghost" = some cfgA :=
  c9_orphan_spec_not_removable stOrphan "ghost" cfgA true true (by decide) (by decide)

theorem resolveDefault_of_none (pools : List (String × Nat)) :
    connectResolveDefault pools none = none := rfl

theorem resolveDefault_of_live (pools : List (String × Nat)) (d : String)
    (h : hasKey pools d = true) :
    connectResolveDefault pools (some d) = some d := by
  simp [connectResolveDefault, h]

theorem resolveDefault_of_dead (pools : List (String × Nat)) (d : String)
    (hne : d ≠ "") (h : hasKey pools d = false) :
    connectResolveDefault pools (some d) = some ((keys pools).headD d) := by
  have hb : (d == "") = false := by simpa using hne
  cases pools with
  | nil => simp [connectResolveDefault, hb, h, keys]
  | cons p rest => simp [connectResolveDefault, hb, h, keys]

theorem resolveDefault_live_of_some (pools : List (String × Nat)) (cfgd : Option String)
    (d : String) (hp : pools ≠ [])
    (h : connectResolveDefault pools cfgd = some d) (hne : d ≠ "") :
    hasKey pools d = true := by
  cases cfgd with
  | none => simp [connectResolveDefault] at h
  | some d0 =>
    by_cases hlive : hasKey pools d0 = true
    · rw [resolveDefault_of_live pools d0 hlive] at h
      cases h; exact hlive
    · by_cases h0 : d0 = ""
      · subst h0
        simp [connectResolveDefault] at h
        cases h; exact absurd rfl hne
      · have hdead : hasKey pools d0 = false := by
          cases hx : hasKey pools d0 with
          | true => exact absurd hx hlive
          | false => rfl
        rw [resolveDefault_of_dead pools d0 h0 hdead] at h
        cases pools with
        | nil => exact absurd rfl hp
        | cons p rest =>
          simp [keys] at h
          simp [hasKey, h]

/-- Claim C1, corrected: the claim's resolution rule fails on the code.
With a described database x whose startup connect fails and x stated
as the default, no pool is live after connect, yet the default remains
set to x — not unset as claimed — and the set default then names an id
absent from the live-pool mapping, violating the claimed invariant. -/
theorem c1_counterexample :
    (connect [("x", cfgX)] (some "x") (fun _ _ => none)).pools = [] ∧
    (connect [("x", cfgX)] (some "x") (fun _ _ => none)).default_database = some "x" :=
  ⟨rfl, rfl⟩

/-- Claim C1, amended: after connect the default id is resolved as
follows — no stated default leaves the default unset even when pools
are live; a stated default with a live pool is kept; a stated nonempty
default with no live pool becomes the first live id when any pool is
live and otherwise stays as the stated (dead) id.  Consequently the
invariant holds only in the presence of a live pool: whenever some
pool is live, a nonempty resolved default names an id present in the
live-pool mapping. -/
theorem c1_default_resolution (dbs : List (String × DbConfig)) (cfgd : Option String)
    (driver : String → DbConfig → Option Nat) :
    ((connect dbs none driver).default_database = none) ∧
    (∀ d, cfgd = some d → hasKey (connect dbs cfgd driver).pools d = true →
      (connect dbs cfgd driver).default_database = some d) ∧
    (∀ d, cfgd = some d → d ≠ "" → hasKey (connect dbs cfgd driver).pools d = false →
      (connect dbs cfgd driver).default_database
        = some ((keys (connect dbs cfgd driver).pools).headD d)) ∧
    (∀ d, (connect dbs cfgd driver).pools ≠ [] →
      (connect dbs cfgd driver).default_database = some d → d ≠ "" →
      hasKey (connect dbs cfgd driver).pools d = true) := by
  refine ⟨rfl, ?_, ?_, ?_⟩
  · intro d hc h
    subst hc
    exact resolveDefault_of_live _ d h
  · intro d hc hne h
    subst hc
    exact resolveDefault_of_dead _ d hne h
  · intro d hp h hne
    exact resolveDefault_live_of_some _ cfgd d hp h hne

/-- Witness for C1 at a description whose stated default connects
successfully. -/
theorem c1_default_resolution_witness :
    (connect [("x", cfgX)] (some "x") (fun _ _ => some 1)).default_database = some "x" :=
  (c1_default_resolution [("x", cfgX)] (some "x") (fun _ _ => some 1)).2.1 "x" rfl (by decide)

theorem filter_all_alnum (alnum : Char → Bool) (l : List Char) :
    (l.filter (fun c => !(c == '_' || c == '-'))).all alnum
      = l.all (fun c => alnum c || c == '_' || c == '-') := by
  induction l with
  | nil => rfl
  | cons c rest ih =>
    cases hu : (c == '_') <;> cases hh : (c == '-')
    · have hfil : List.filter (fun x => !(x == '_' || x == '-')) (c :: rest)
          = c :: List.filter (fun x => !(x == '_' || x == '-')) rest := by
        simp [List.filter_cons, hu, hh]
      have hall : (c :: rest).all (fun x => alnum x || x == '_' || x == '-')
          = (alnum c
              && rest.all (fun x => alnum x || x == '_' || x == '-')) := by
        simp [List.all_cons, hu, hh]
      rw [hfil, hall, List.all_cons, ih]
    all_goals {
      have hfil : List.filter (fun x => !(x == '_' || x == '-')) (c :: rest)
          = List.filter (fun x => !(x == '_' || x == '-')) rest := by
        simp [List.filter_cons, hu, hh]
      have hall : (c :: rest).all (fun x => alnum x || x == '_' || x == '-')
          = rest.all (fun x => alnum x || x == '_' || x == '-') := by
        simp [List.all_cons, hu, hh]
      rw [hfil, hall, ih] }

theorem not_any_bad_char (alnum : Char → Bool) (l : List Char) :
    (!(l.any (fun c => !(alnum c || c == '_' || c == '-'))))
      = l.all (fun c => alnum c || c == '_' || c == '-') := by
  induction l with
  | nil => rfl
  | cons c rest ih =>
    have h1 : (c :: rest).any (fun x => !(alnum x || x == '_' || x == '-'))
        = ((!(alnum c || c == '_' || c == '-'))
            || rest.any (fun x => !(alnum x || x == '_' || x == '-'))) := by
      simp only [List.any_cons]
    rw [h1, Bool.not_or, Bool.not_not, ih, List.all_cons]

theorem validId_eq_not_specInvalid (alnum : Char → Bool) (s : String) :
    validId alnum s = !(specInvalidAmended alnum s) := by
  unfold validId specInvalidAmended pyIsAlnum
  rw [filter_all_alnum alnum s.toList, Bool.not_or, not_any_bad_char alnum s.toList]
  exact Bool.and_comm _ _

/-- Claim C2, corrected: the claimed iff fails on the code.  The id
consisting of a single hyphen contains no character outside
[A-Za-z0-9_-], yet add_database (here on the empty registry, where the
id is not already present) rejects it with the invalid-id error,
because stripping underscores and hyphens leaves the empty string and
Python isalnum is false on the empty string for every host
classification — the concrete ASCII classification passed here is
immaterial to this trace. -/
theorem c2_counterexample :
    (add_database asciiAlnumChar st0 "-" "h" 1 "d" "u" "p" false none none none
        (ConnectOutcome.ok 1) true).1 = AddResult.invalidId invalidIdMsg ∧
    specHasBadChar "-" = false := ⟨rfl, rfl⟩

/-- Claim C2, amended: for every add call whose id is not already
present, add fails with the invalid-id error iff the id, after
removing every underscore and hyphen, is not a nonempty string of
characters the host's isalnum classifies as alphanumeric.  That
classification is Unicode-aware, so the set is not the claim's
[A-Za-z0-9]: an id of only hyphens and underscores (or the empty id)
is rejected although it contains no character outside [A-Za-z0-9_-],
while an id containing a Unicode alphanumeric such as é — documented
as alphanumeric in Python, hypothesis alnum of é below — is accepted
although é is outside [A-Za-z0-9_-].  When the id is so rejected, the
result is the same for every connection outcome — no connection
attempt is made — and the state (pool set, config, default) is
returned unchanged. -/
theorem c2_invalid_id (alnum : Char → Bool) (st : DatabaseContext) (id host : String)
    (port : Int)
    (database user password : String) (sd : Bool) (pn pd pt : Option String)
    (conn : ConnectOutcome) (saveOk : Bool)
    (hnew : hasKey st.pools id = false) :
    ((add_database alnum st id host port database user password sd pn pd pt conn saveOk).1
        = AddResult.invalidId invalidIdMsg ↔ specInvalidAmended alnum id = true) ∧
    (specInvalidAmended alnum id = true →
      add_database alnum st id host port database user password sd pn pd pt conn saveOk
        = (AddResult.invalidId invalidIdMsg, st)) ∧
    (alnum 'é' = true → hasKey st.pools "é" = false →
      (add_database alnum st "é" host port database user password sd pn pd pt conn saveOk).1
        ≠ AddResult.invalidId invalidIdMsg) := by
  have hv := validId_eq_not_specInvalid alnum id
  have hE : ∀ he : alnum 'é' = true, ∀ hk : hasKey st.pools "é" = false,
      (add_database alnum st "é" host port database user password sd pn pd pt conn saveOk).1
        ≠ AddResult.invalidId invalidIdMsg := by
    intro he hk
    have hl : ("é".toList) = ['é'] := rfl
    have hvE : validId alnum "é" = true := by
      unfold validId pyIsAlnum
      rw [hl]
      simp [he]
    cases conn with
    | fail msg => simp [add_database, hk, hvE]
    | ok handle => cases saveOk <;> simp [add_database, hk, hvE]
  cases hs : specInvalidAmended alnum id with
  | true =>
    have hvalid : validId alnum id = false := by rw [hv, hs]; rfl
    have hres : add_database alnum st id host port database user password sd pn pd pt conn
        saveOk = (AddResult.invalidId invalidIdMsg, st) := by
      simp [add_database, hnew, hvalid]
    exact ⟨by simp [hres], fun _ => hres, hE⟩
  | false =>
    have hvalid : validId alnum id = true := by rw [hv, hs]; rfl
    refine ⟨?_, ?_, hE⟩
    · constructor
      · intro hbad
        exfalso
        cases conn with
        | fail msg =>
          simp [add_database, hnew, hvalid] at hbad
        | ok handle =>
          cases saveOk <;> simp [add_database, hnew, hvalid] at hbad
      · intro hbad
        exact absurd hbad (by simp)
    · intro hbad
      exact absurd hbad (by simp)

/-- Witness for C2 at the empty registry under the concrete
classification with é: the single-hyphen id is rejected with the state
unchanged, and the id é is not rejected as invalid. -/
theorem c2_invalid_id_witness :
    add_database alnumWithE st0 "-" "h" 1 "d" "u" "p" false none none none
      (ConnectOutcome.fail "refused") true = (AddResult.invalidId invalidIdMsg, st0) ∧
    (add_database alnumWithE st0 "é" "h" 1 "d" "u" "p" false none none none
      (ConnectOutcome.fail "refused") true).1 ≠ AddResult.invalidId invalidIdMsg :=
  ⟨(c2_invalid_id alnumWithE st0 "-" "h" 1 "d" "u" "p" false none none none
      (ConnectOutcome.fail "refused") true (by decide)).2.1 (by decide),
   (c2_invalid_id alnumWithE st0 "-" "h" 1 "d" "u" "p" false none none none
      (ConnectOutcome.fail "refused") true (by decide)).2.2 (by decide) (by decide)⟩

/-- Claim C10, confirmed: on every successful add in which
project_name is omitted, the stored config entry carries no project
metadata at all — the supplied project_description and project_tags
are discarded — and for any nonempty tag, the added id is absent from
a subsequent tag search. -/
theorem c10_project_metadata_discarded (alnum : Char → Bool) (st : DatabaseContext)
    (id host : String)
    (port : Int) (database user password : String) (sd : Bool)
    (pd pt : Option String) (handle : Nat) (t : String)
    (r : AddResult) (st1 : DatabaseContext)
    (hnew : hasKey st.pools id = false) (hvalid : validId alnum id = true)
    (hrun : add_database alnum st id host port database user password sd none pd pt
        (ConnectOutcome.ok handle) true = (r, st1)) :
    (∃ b, r = AddResult.added "added successfully" id b) ∧
    dictGet st1.databases id = some
      { host := host, port := port, database := database, user := user
        password := password, project := none } ∧
    (t ≠ "" → id ∉ find_databases_by_project st1 none (some t)) := by
  have hproj : mkProject none pd pt = none := rfl
  simp only [add_database, hnew, Bool.false_eq_true, if_false, hvalid, Bool.not_true,
    hproj, if_true, Prod.mk.injEq] at hrun
  obtain ⟨hr, hst⟩ := hrun
  refine ⟨⟨_, hr.symm⟩, ?_, ?_⟩
  · rw [← hst]
    exact dictGet_dictSet_self st.databases id _
  · intro ht hmem
    have hget : dictGet st1.databases id = some
        { host := host, port := port, database := database, user := user
          password := password, project := none } := by
      rw [← hst]
      exact dictGet_dictSet_self st.databases id _
    unfold find_databases_by_project get_available_databases at hmem
    rw [List.mem_filter] at hmem
    have hpred := hmem.2
    rw [hget] at hpred
    simp [specMatches, pyTruthyStr, ht] at hpred

/-- Witness for C10: adding db1 to the empty registry with a
description and tags but no project name stores no project metadata,
and the tag search for prod does not return db1. -/
theorem c10_project_metadata_discarded_witness :
    (∃ b, (add_database asciiAlnumChar st0 "db1" "h" 1 "d" "u" "p" false none (some "desc")
        (some "a,b") (ConnectOutcome.ok 5) true).1
      = AddResult.added "added successfully" "db1" b) ∧
    dictGet (add_database asciiAlnumChar st0 "db1" "h" 1 "d" "u" "p" false none (some "desc")
        (some "a,b") (ConnectOutcome.ok 5) true).2.databases "db1" = some
      { host := "h", port := 1, database := "d", user := "u"
        password := "p", project := none } ∧
    ("prod" ≠ "" → "db1" ∉ find_databases_by_project
      (add_database asciiAlnumChar st0 "db1" "h" 1 "d" "u" "p" false none (some "desc")
        (some "a,b") (ConnectOutcome.ok 5) true).2 none (some "prod")) :=
  c10_project_metadata_discarded asciiAlnumChar st0 "db1" "h" 1 "d" "u" "p" false
    (some "desc") (some "a,b") 5 "prod" _ _ (by decide) (by decide) rfl

theorem specMatches_eq_claimCriteria (pn pt : Option String) (cfg : DbConfig) :
    specMatches pn pt cfg = claimCriteria pn pt cfg := by
  cases hp : cfg.project with
  | none =>
    cases pn <;> cases pt <;> simp [specMatches, claimCriteria, pyTruthyStr, hp]
  | some info =>
    cases pn <;> cases pt <;>
      simp [specMatches, claimCriteria, pyTruthyStr, hp, Bool.or_comm,
        Bool.or_left_comm, Bool.and_comm, Bool.and_left_comm]

/-- Claim C7, confirmed: a spec's id is in the find result exactly when
the id is live and its config entry satisfies the claim's criteria —
both filters empty (project info or not), or a given project name equal
to the spec's project name, or a given tag present in the spec's tag
set, combined by OR — and on the concrete scenario with specs
A (project X, tag prod), B (project X, tag dev) and C (no project),
find by project X returns A and B, find by tag prod returns A, and
find with no filters returns A, B and C. -/
theorem c7_find_by_project :
    (∀ st pn pt id, id ∈ find_databases_by_project st pn pt ↔
      (id ∈ keys st.pools ∧ ∃ cfg, dictGet st.databases id = some cfg ∧
        claimCriteria pn pt cfg = true)) ∧
    find_databases_by_project stABC (some "X") none = ["A", "B"] ∧
    find_databases_by_project stABC none (some "prod") = ["A"] ∧
    find_databases_by_project stABC none none = ["A", "B", "C"] := by
  refine ⟨?_, by decide, by decide, by decide⟩
  intro st pn pt id
  unfold find_databases_by_project get_available_databases
  simp only [List.mem_filter]
  constructor
  · rintro ⟨h1, h2⟩
    refine ⟨h1, ?_⟩
    cases hd : dictGet st.databases id with
    | none => rw [hd] at h2; exact absurd h2 (by simp)
    | some cfg =>
      rw [hd] at h2
      exact ⟨cfg, rfl, by rw [← specMatches_eq_claimCriteria]; exact h2⟩
  · rintro ⟨h1, cfg, hd, hc⟩
    refine ⟨h1, ?_⟩
    rw [hd]
    show specMatches pn pt cfg = true
    rw [specMatches_eq_claimCriteria]
    exact hc

/-- Witness for C7: spec A is found by its project name X. -/
theorem c7_find_by_project_witness :
    "A" ∈ find_databases_by_project stABC (some "X") none :=
  (c7_find_by_project.1 stABC (some "X") none "A").mpr
    ⟨by decide, cfgA, by decide, by decide⟩

theorem toUpper_of_ws (c : Char) (h : pyWs c = true) : c.toUpper = c := by
  have hc : c = ' ' ∨ c = '\t' ∨ c = '\n' ∨ c = '\r' ∨ c = '\x0b' ∨ c = '\x0c' := by
    simpa [pyWs, or_assoc] using h
  rcases hc with h1 | h1 | h1 | h1 | h1 | h1 <;> subst h1 <;> decide

theorem begins_append_ws (p : List Char) :
    ∀ (a s : List Char), (∀ c ∈ p, pyWs c = false) → (∀ c ∈ s, pyWs c = true) →
      begins p ((a ++ s).map Char.toUpper) = begins p (a.map Char.toUpper) := by
  induction p with
  | nil => intro a s _ _; rfl
  | cons hp tp ih =>
    intro a s hP hS
    cases a with
    | nil =>
      simp only [List.nil_append, List.map_nil]
      cases s with
      | nil => rfl
      | cons w s1 =>
        have hw : pyWs w = true := hS w (by simp)
        have hhp : pyWs hp = false := hP hp (by simp)
        have hne : (hp == Char.toUpper w) = false := by
          rw [toUpper_of_ws w hw, beq_eq_false_iff_ne]
          intro he
          rw [he, hw] at hhp
          exact absurd hhp (by decide)
        simp [begins, hne]
    | cons x a1 =>
      simp only [List.cons_append, List.map_cons, begins]
      exact congrArg (fun b => (hp == x.toUpper) && b)
        (ih a1 s (fun c hc => hP c (by simp [hc])) hS)

theorem rstrip_decomp (l : List Char) :
    pyRStrip l ++ (l.reverse.takeWhile pyWs).reverse = l := by
  unfold pyRStrip
  rw [← List.reverse_append, List.takeWhile_append_dropWhile, List.reverse_reverse]

theorem mem_rstrip_tail_ws (l : List Char) :
    ∀ c ∈ (l.reverse.takeWhile pyWs).reverse, pyWs c = true := by
  intro c hc
  rw [List.mem_reverse] at hc
  exact List.mem_takeWhile_imp hc

theorem isReadQuery_eq_spec (q : String) : isReadQuery q = specIsRead q := by
  show (begins ("SELECT".toList) ((pyRStrip (pyLStrip q.toList)).map Char.toUpper)
      || begins ("WITH".toList) ((pyRStrip (pyLStrip q.toList)).map Char.toUpper))
    = (begins ("SELECT".toList) ((pyLStrip q.toList).map Char.toUpper)
      || begins ("WITH".toList) ((pyLStrip q.toList).map Char.toUpper))
  have key : ∀ p : List Char, (∀ c ∈ p, pyWs c = false) →
      begins p ((pyLStrip q.toList).map Char.toUpper)
        = begins p ((pyRStrip (pyLStrip q.toList)).map Char.toUpper) := by
    intro p hp
    conv_lhs => rw [← rstrip_decomp (pyLStrip q.toList)]
    exact begins_append_ws p (pyRStrip (pyLStrip q.toList)) _ hp
      (mem_rstrip_tail_ws (pyLStrip q.toList))
  rw [key ("SELECT".toList) (by decide), key ("WITH".toList) (by decide)]

/-- Claim C5, confirmed: the classifier of execute_query (which strips
both ends before the prefix test) agrees on every statement with the
claim's rule — trim leading whitespace, case-fold, test for a SELECT or
WITH prefix; a read statement run on a live pool returns the success
record carrying the fetched rows mapped to field-to-value records, a
row_count equal to the number of fetched rows, and the resolved id;
every other statement returns the write/DDL result shape. -/
theorem c5_read_classification :
    (∀ q, isReadQuery q = specIsRead q) ∧
    (∀ st q dbid p rows execR, get_pool st dbid = some p → isReadQuery q = true →
      execute_query st q dbid (Except.ok rows) execR
        = QueryResult.readOk rows rows.length q (resolvedLabel st dbid)) ∧
    (∀ st q dbid p fetchR msg, get_pool st dbid = some p → isReadQuery q = false →
      execute_query st q dbid fetchR (Except.ok msg)
        = QueryResult.writeOk msg q (resolvedLabel st dbid)) := by
  refine ⟨isReadQuery_eq_spec, ?_, ?_⟩
  · intro st q dbid p rows execR hpool hread
    simp [execute_query, hpool, hread]
  · intro st q dbid p fetchR msg hpool hread
    simp [execute_query, hpool, hread]

/-- Witness for C5: a SELECT against the default database of the
single-database state. -/
theorem c5_read_classification_witness :
    execute_query stMain "SELECT 1" none (Except.ok [[("a", "1")]]) (Except.ok "")
      = QueryResult.readOk [[("a", "1")]] 1 "SELECT 1" (some "main") :=
  c5_read_classification.2.1 stMain "SELECT 1" none 7 [[("a", "1")]]
    (Except.ok "") rfl (by decide)

/-- Claim C6, confirmed: an error raised by the driver while the
statement runs — on the fetch path of a read statement or the execute
path of any other statement — is caught and returned as the failure
record carrying the error message and the resolved id, whose success
field is false; execute_query is a total function into result records,
so no such error propagates to the caller. -/
theorem c6_execution_errors_returned (st : DatabaseContext) (q : String)
    (dbid : Option String) (p : Nat) (msg : String)
    (hpool : get_pool st dbid = some p) :
    (∀ execR, isReadQuery q = true →
      execute_query st q dbid (Except.error msg) execR
        = QueryResult.failed msg q (resolvedLabel st dbid)) ∧
    (∀ fetchR, isReadQuery q = false →
      execute_query st q dbid fetchR (Except.error msg)
        = QueryResult.failed msg q (resolvedLabel st dbid)) ∧
    (∀ e q2 l, successFlag (QueryResult.failed e q2 l) = some false) := by
  refine ⟨?_, ?_, fun _ _ _ => rfl⟩
  · intro execR hread
    simp [execute_query, hpool, hread]
  · intro fetchR hread
    simp [execute_query, hpool, hread]

/-- Witness for C6: a failing DDL statement against the default
database of the single-database state. -/
theorem c6_execution_errors_returned_witness :
    execute_query stMain "DROP TABLE t" none (Except.ok []) (Except.error "boom")
      = QueryResult.failed "boom" "DROP TABLE t" (some "main") :=
  (c6_execution_errors_returned stMain "DROP TABLE t" none 7 "boom" rfl).2.1
    (Except.ok []) (by decide)

end PgMcp
